import Mathlib

/-!
Verification of the client-side session/messaging core of the `ai_companion`
frontend: the `chatReducer` state machine of
`frontend/src/contexts/ChatContext.jsx`, the `WebSocketService` of
`frontend/src/services/websocket.js` (connect/reconnect policy, the
`on`/`off`/`emit` event bus), and the intent operations (`sendMessage`,
`createSession`) layered on top of them.

The JavaScript source is embedded shallowly:

* JS objects become Lean structures; an absent (`undefined`) field of a
  message object is embedded as `false` for booleans and `none` for
  optional strings, matching JS truthiness at every use site.
* The JS idiom `a || b` on strings (absent and empty string both falsy)
  is embedded as `jsOr` / `jsOrOpt`.
* `Date.now()` and `new Date().toISOString()` are embedded as an explicit
  `now : String` parameter threaded into the reducer (the claims proved
  here do not depend on its value).
* `content.trim()` being falsy is embedded as "every character of
  `content` is whitespace" (`isBlankStr`), since a JS string trims to the
  empty string exactly when all its characters are whitespace.
* `localStorage` writes in `SET_USER_ID` are side effects outside the
  state value and are not part of the embedding.
-/

/-- Embedding of the JS string idiom `v || d` where `v` may be absent
(`undefined`): both an absent value and the empty string are falsy. -/
def jsOr (v : Option String) (d : String) : String :=
  match v with
  | none => d
  | some s => if s = "" then d else s

/-- Embedding of the JS idiom `v || d` where both sides are possibly-absent
strings (used for `payload.emo || state.currentEmotion`). -/
def jsOrOpt (v : Option String) (d : Option String) : Option String :=
  match v with
  | none => d
  | some s => if s = "" then d else some s

/-- A JS string is falsy after `trim()` exactly when all of its characters
are whitespace (this includes the empty string). -/
def isBlankStr (s : String) : Bool :=
  s.data.all Char.isWhitespace

/-- Concatenation of a list of delta strings in arrival order. -/
def concatDeltas : List String → String
  | [] => ""
  | d :: ds => d ++ concatDeltas ds

/-- A transcript message, from the object shapes built in `chatReducer`
(ChatContext.jsx).  Server-loaded messages and user messages never set
`isStreaming` or `emotion` (absent fields, embedded as their falsy
defaults). -/
structure Message where
  id : String
  role : String
  content : String
  created_at : String
  isStreaming : Bool := false
  emotion : Option String := none
deriving Repr, DecidableEq

/-- A session roster entry, from the payload built by the `session_created`
handler in ChatContext.jsx (`message_count` is absent on freshly created
sessions). -/
structure Session where
  id : String
  title : String
  created_at : String
  updated_at : String
  message_count : Option Nat := none
deriving Repr, DecidableEq

/-- The reducer state of ChatContext.jsx (`initialState` shape). -/
structure ChatState where
  isConnected : Bool
  isConnecting : Bool
  userId : String
  sessions : List Session
  activeSessionId : Option String
  messages : List Message
  isLoading : Bool
  currentEmotion : Option String
  error : Option String
deriving Repr, DecidableEq

/-- `initialState` of ChatContext.jsx (with the `localStorage` fallback
user id `guest`). -/
def initialChatState : ChatState :=
  { isConnected := false
    isConnecting := false
    userId := "guest"
    sessions := []
    activeSessionId := none
    messages := []
    isLoading := false
    currentEmotion := none
    error := none }

/-- The action alphabet of `chatReducer` (the `ActionTypes` table of
ChatContext.jsx), with each payload as used by the reducer. -/
inductive ChatAction where
  | setConnecting
  | setConnected
  | setDisconnected
  | setUserId (uid : String)
  | setSessions (ss : List Session)
  | setActiveSession (sid : Option String)
  | addSession (sess : Session)
  | removeSession (sid : String)
  | loadSessionMessages (ms : List Message)
  | addUserMessage (pid : Option String) (content : String)
  | startAssistantMessage (pid : Option String)
  | appendStreamDelta (delta : String)
  | finishAssistantMessage (emo : Option String) (contentOpt : Option String)
  | clearMessages
  | setLoading (b : Bool)
  | setEmotion (e : Option String)
  | setError (e : String)
deriving Repr, DecidableEq

/-- The JS guard `lastMsg && lastMsg.role === 'assistant' && lastMsg.isStreaming`
applied to one message. -/
def isStreamingAssistant (m : Message) : Bool :=
  m.role == "assistant" && m.isStreaming

/-- The brand-new streaming assistant message pushed by the
`APPEND_STREAM_DELTA` else-branch. -/
def newStreamMessage (now delta : String) : Message :=
  { id := "assistant-" ++ now
    role := "assistant"
    content := delta
    created_at := now
    isStreaming := true
    emotion := none }

/-- Shallow embedding of `chatReducer` from ChatContext.jsx.  Each case
mirrors the corresponding `switch` branch; `now` stands for the wall-clock
strings produced by `Date.now()` / `toISOString()`. -/
def chatReducer (now : String) (state : ChatState) : ChatAction → ChatState
  | .setConnecting => { state with isConnecting := true, error := none }
  | .setConnected => { state with isConnected := true, isConnecting := false }
  | .setDisconnected => { state with isConnected := false, isConnecting := false }
  | .setUserId uid => { state with userId := uid }
  | .setSessions ss => { state with sessions := ss }
  | .setActiveSession sid => { state with activeSessionId := sid }
  | .addSession sess =>
      { state with
        sessions := sess :: state.sessions
        activeSessionId := some sess.id }
  | .removeSession sid =>
      { state with
        sessions := state.sessions.filter (fun t => t.id != sid)
        activeSessionId :=
          if state.activeSessionId = some sid then none else state.activeSessionId
        messages :=
          if state.activeSessionId = some sid then [] else state.messages }
  | .loadSessionMessages ms => { state with messages := ms, isLoading := false }
  | .addUserMessage pid content =>
      { state with
        messages := state.messages ++
          [{ id := jsOr pid ("user-" ++ now)
             role := "user"
             content := content
             created_at := now }] }
  | .startAssistantMessage pid =>
      { state with
        messages := state.messages ++
          [{ id := jsOr pid ("assistant-" ++ now)
             role := "assistant"
             content := ""
             created_at := now
             isStreaming := true }] }
  | .appendStreamDelta delta =>
      match state.messages.getLast? with
      | some lastMsg =>
          if isStreamingAssistant lastMsg then
            { state with
              messages := state.messages.dropLast ++
                [{ lastMsg with content := lastMsg.content ++ delta }] }
          else
            { state with messages := state.messages ++ [newStreamMessage now delta] }
      | none => { state with messages := state.messages ++ [newStreamMessage now delta] }
  | .finishAssistantMessage emo contentOpt =>
      let msgs :=
        match state.messages.getLast? with
        | some lastMsg =>
            if isStreamingAssistant lastMsg then
              state.messages.dropLast ++
                [{ lastMsg with
                   isStreaming := false
                   emotion := emo
                   content := jsOr contentOpt lastMsg.content }]
            else state.messages
        | none => state.messages
      { state with
        messages := msgs
        currentEmotion := jsOrOpt emo state.currentEmotion }
  | .clearMessages => { state with messages := [] }
  | .setLoading b => { state with isLoading := b }
  | .setEmotion e => { state with currentEmotion := e }
  | .setError e => { state with error := some e, isLoading := false }

/-- Folding a sequence of `stream` delta events (each dispatching
`APPEND_STREAM_DELTA`) into the state, in arrival order. -/
def applyDeltas (now : String) (s : ChatState) (ds : List String) : ChatState :=
  ds.foldl (fun st d => chatReducer now st (.appendStreamDelta d)) s

/-- Whether the last transcript entry exists and is a streaming assistant
message. -/
def lastIsStreamingAssistant (ms : List Message) : Bool :=
  match ms.getLast? with
  | some m => isStreamingAssistant m
  | none => false

/-- Whether the last transcript entry exists and is streaming (any role). -/
def lastIsStreaming (ms : List Message) : Bool :=
  match ms.getLast? with
  | some m => m.isStreaming
  | none => false

/-- The transcript streaming invariant of the spec: every message except
possibly the last is non-streaming, and a streaming last message must have
the assistant role.  (Hence at most one streaming message, and if present
it is last and an assistant message.) -/
def streamInvB (ms : List Message) : Bool :=
  ms.dropLast.all (fun m => !m.isStreaming) &&
    (match ms.getLast? with
     | some m => !m.isStreaming || (m.role == "assistant")
     | none => true)

/-! ### Event-bus and intent model

`WebSocketService.on` pushes a callback onto a per-event array; `off`
removes it with `indexOf` + `splice`; `emit` iterates the array with
`Array.prototype.forEach`, which captures the length once and reads the
current element at each index (so a removal during iteration shifts later
callbacks one slot left and the iteration skips one of them).

Only the `session_created` listener list matters for the claims below.
Its two handler shapes in the source are the `ChatProvider` handler (which
dispatches `ADD_SESSION`) and the one-shot deferred-send handler created
inside `sendMessage` (which dispatches `ADD_USER_MESSAGE`, sends a `chat`
frame and then unsubscribes itself).  Each handler closure gets a
distinguishing `uid` so that removal-by-identity (`indexOf`) is by
structural equality here. -/

/-- Outbound wire frames built by the `send` helpers of
`WebSocketService` (the model assumes an open transport, so every `send`
succeeds and serializes its frame). -/
inductive Frame where
  | newSessionF
  | chatF (content : String)
  | initSessionF (sid : Option String)
  | listSessionsF
  | deleteSessionF (sid : String)
deriving Repr, DecidableEq

/-- A `session_created` handler closure registered on the bus. -/
inductive Handler where
  | addSessionH
  | oneShotH (content : String) (uid : Nat)
deriving Repr, DecidableEq

/-- The joint state of the chat reducer, the bus's `session_created`
listener array, and the list of frames sent so far (in send order). -/
structure Sys where
  chat : ChatState
  listeners : List Handler
  frames : List Frame
deriving Repr, DecidableEq

/-- `off`: `indexOf` + `splice(index, 1)` removes the first occurrence of
the handler from the listener array. -/
def removeFirst (h : Handler) : List Handler → List Handler
  | [] => []
  | x :: xs => if x = h then xs else x :: removeFirst h xs

/-- Payload of an inbound `session_created` frame. -/
structure SessionCreatedData where
  session_id : String
  title : Option String
deriving Repr, DecidableEq

/-- The `Session` object built by the ChatProvider `session_created`
handler (`data.title || '新对话'`, timestamps from `new Date()`). -/
def sessionOfData (now : String) (d : SessionCreatedData) : Session :=
  { id := d.session_id
    title := jsOr d.title "新对话"
    created_at := now
    updated_at := now }

/-- Run one `session_created` handler on the system state.  The one-shot
handler performs, in source order: dispatch `ADD_USER_MESSAGE`, send the
`chat` frame, then unsubscribe itself. -/
def runHandler (now : String) (d : SessionCreatedData) (sys : Sys) : Handler → Sys
  | .addSessionH =>
      { sys with chat := chatReducer now sys.chat (.addSession (sessionOfData now d)) }
  | .oneShotH c uid =>
      { chat := chatReducer now sys.chat (.addUserMessage none c)
        frames := sys.frames ++ [.chatF c]
        listeners := removeFirst (.oneShotH c uid) sys.listeners }

/-- The `forEach` loop of `emit`: `fuel` is the array length captured
before iteration, `k` the current index; at each index the handler in the
current (possibly spliced) array is read, a missing index is skipped. -/
def emitFrom (now : String) (d : SessionCreatedData) : Nat → Nat → Sys → Sys
  | 0, _, sys => sys
  | fuel + 1, k, sys =>
      let sys' :=
        match sys.listeners[k]? with
        | some h => runHandler now d sys h
        | none => sys
      emitFrom now d fuel (k + 1) sys'

/-- `emit('session_created', data)`: iterate the listener array with the
JS `forEach` semantics. -/
def emitSessionCreated (now : String) (d : SessionCreatedData) (sys : Sys) : Sys :=
  emitFrom now d sys.listeners.length 0 sys

/-- The `sendMessage` intent of ChatContext.jsx.  Blank content is a
no-op; with no active session it sends `new_session` and registers the
one-shot deferred-send handler (appending nothing yet); with an active
session it appends the user message optimistically and sends the `chat`
frame.  `uid` is the fresh identity of the one-shot closure. -/
def sendMessageIntent (now : String) (uid : Nat) (content : String) (sys : Sys) : Sys :=
  if isBlankStr content then sys
  else
    match sys.chat.activeSessionId with
    | none =>
        { sys with
          frames := sys.frames ++ [.newSessionF]
          listeners := sys.listeners ++ [.oneShotH content uid] }
    | some _ =>
        { sys with
          chat := chatReducer now sys.chat (.addUserMessage none content)
          frames := sys.frames ++ [.chatF content] }

/-- The `createSession` intent of ChatContext.jsx: dispatch
`CLEAR_MESSAGES`, then send a `new_session` frame. -/
def createSessionIntent (now : String) (sys : Sys) : Sys :=
  { sys with
    chat := chatReducer now sys.chat .clearMessages
    frames := sys.frames ++ [.newSessionF] }

/-! ### Reconnection model

From `WebSocketService` (websocket.js): `reconnectAttempts`,
`maxReconnectAttempts = 5`, `reconnectDelay = 3000`, and the `onopen` /
`onclose` / `onerror` transport callbacks.  A scheduled reconnect is
recorded as the pair of the target user id (`this.userId`, the last-used
identifier) and the fixed delay.  `errorEvents` counts `error` bus events
(each of which also rejects the in-flight connect promise). -/

def maxReconnectAttempts : Nat := 5

def reconnectDelay : Nat := 3000

/-- The retry-relevant state of the `WebSocketService` singleton. -/
structure WSState where
  userId : String
  reconnectAttempts : Nat
  scheduled : List (String × Nat)
  errorEvents : Nat
deriving Repr, DecidableEq

/-- The `onclose` callback: emit `disconnected` (not modelled), then, if
`reconnectAttempts < maxReconnectAttempts`, increment the counter and
schedule `connect(this.userId)` after `reconnectDelay`. -/
def wsOnClose (s : WSState) : WSState :=
  if s.reconnectAttempts < maxReconnectAttempts then
    { s with
      reconnectAttempts := s.reconnectAttempts + 1
      scheduled := s.scheduled ++ [(s.userId, reconnectDelay)] }
  else s

/-- The `onopen` callback: reset `reconnectAttempts` to 0 (and emit
`connected`, resolve the promise — not retry-relevant). -/
def wsOnOpen (s : WSState) : WSState :=
  { s with reconnectAttempts := 0 }

/-- The `onerror` callback: emit an `error` event and reject the pending
connect promise; the retry counter and the schedule are untouched. -/
def wsOnError (s : WSState) : WSState :=
  { s with errorEvents := s.errorEvents + 1 }

/-- Transport lifecycle events driving the retry state machine. -/
inductive WSEv where
  | closeEv
  | errorEv
  | openEv
deriving Repr, DecidableEq

def wsStep (s : WSState) : WSEv → WSState
  | .closeEv => wsOnClose s
  | .errorEv => wsOnError s
  | .openEv => wsOnOpen s

def wsRun (s : WSState) (evs : List WSEv) : WSState :=
  evs.foldl wsStep s

/-! ### Transport-world model for `connect`

`WebSocketService.connect(userId)`: if `this.ws` exists and its
`readyState` is `OPEN`, then a same-id connect resolves immediately and a
different-id connect calls `this.ws.close()` (readyState becomes CLOSING)
before constructing the new `WebSocket`; in every other case the old
socket (if any) is simply abandoned — `this.ws` is overwritten without a
`close()` call.  `transports` lists every socket ever constructed, in
construction order; `cur` is the index held by `this.ws`.  `tOpenEvent`
is the browser delivering `onopen` to a socket that was still connecting
(whether or not the service still references it). -/

inductive TStatus where
  | connecting
  | opened
  | closing
deriving Repr, DecidableEq

structure Transport where
  user : String
  status : TStatus
deriving Repr, DecidableEq

structure ConnWorld where
  transports : List Transport
  cur : Option Nat
deriving Repr, DecidableEq

/-- Append a fresh CONNECTING socket for `u` and point `this.ws` at it. -/
def pushTransport (u : String) (w : ConnWorld) : ConnWorld :=
  { transports := w.transports ++ [{ user := u, status := .connecting }]
    cur := some w.transports.length }

/-- Shallow embedding of `WebSocketService.connect(userId)` (its
synchronous part, up to constructing the new socket). -/
def wsConnect (u : String) (w : ConnWorld) : ConnWorld :=
  match w.cur with
  | some i =>
      match w.transports[i]? with
      | some t =>
          if t.status = .opened then
            if t.user = u then w
            else
              pushTransport u
                { w with transports := w.transports.set i { t with status := .closing } }
          else pushTransport u w
      | none => pushTransport u w
  | none => pushTransport u w

/-- The browser opens socket `i` (only a CONNECTING socket can open). -/
def tOpenEvent (i : Nat) (w : ConnWorld) : ConnWorld :=
  match w.transports[i]? with
  | some t =>
      if t.status = .connecting then
        { w with transports := w.transports.set i { t with status := .opened } }
      else w
  | none => w

/-- Number of sockets currently in the OPEN state. -/
def countOpen (w : ConnWorld) : Nat :=
  (w.transports.filter (fun t => t.status = .opened)).length

/-! ### Claims -/

/-- Claim C6: applying `session_deleted` (the `REMOVE_SESSION` reducer
case) for the currently active session yields, in one reducer step, a
state with a null active session id and an empty transcript, with the
matching sessions removed from the roster; for a non-active session it
removes only the matching roster entries and leaves the active id and the
transcript unchanged. -/
theorem c6_remove_session (now : String) (s : ChatState) (sid : String) :
    (chatReducer now s (.removeSession sid)).sessions
        = s.sessions.filter (fun t => t.id != sid)
    ∧ (s.activeSessionId = some sid →
        (chatReducer now s (.removeSession sid)).activeSessionId = none
        ∧ (chatReducer now s (.removeSession sid)).messages = [])
    ∧ (s.activeSessionId ≠ some sid →
        (chatReducer now s (.removeSession sid)).activeSessionId = s.activeSessionId
        ∧ (chatReducer now s (.removeSession sid)).messages = s.messages) := by
  refine ⟨rfl, fun h => ?_, fun h => ?_⟩ <;> simp [chatReducer, h]

/-- Claim C6 witness: both branches of `c6_remove_session` evaluated on a
concrete two-session state with active session `s1`. -/
theorem c6_remove_session_witness :
    ((chatReducer "t" { initialChatState with
        activeSessionId := some "s1"
        sessions := [{ id := "s1", title := "a", created_at := "t", updated_at := "t" },
                     { id := "s2", title := "b", created_at := "t", updated_at := "t" }]
        messages := [{ id := "m", role := "user", content := "x", created_at := "t" }] }
        (.removeSession "s1")).activeSessionId = none
      ∧ (chatReducer "t" { initialChatState with
        activeSessionId := some "s1"
        sessions := [{ id := "s1", title := "a", created_at := "t", updated_at := "t" },
                     { id := "s2", title := "b", created_at := "t", updated_at := "t" }]
        messages := [{ id := "m", role := "user", content := "x", created_at := "t" }] }
        (.removeSession "s1")).messages = [])
    ∧ ((chatReducer "t" { initialChatState with
        activeSessionId := some "s1"
        sessions := [{ id := "s1", title := "a", created_at := "t", updated_at := "t" },
                     { id := "s2", title := "b", created_at := "t", updated_at := "t" }]
        messages := [{ id := "m", role := "user", content := "x", created_at := "t" }] }
        (.removeSession "s2")).activeSessionId = some "s1"
      ∧ (chatReducer "t" { initialChatState with
        activeSessionId := some "s1"
        sessions := [{ id := "s1", title := "a", created_at := "t", updated_at := "t" },
                     { id := "s2", title := "b", created_at := "t", updated_at := "t" }]
        messages := [{ id := "m", role := "user", content := "x", created_at := "t" }] }
        (.removeSession "s2")).messages
          = [{ id := "m", role := "user", content := "x", created_at := "t" }]) :=
  ⟨(c6_remove_session "t" _ "s1").2.1 rfl,
   (c6_remove_session "t" _ "s2").2.2 (by decide)⟩

/-- Claim C9: a `stream_end` event (`FINISH_ASSISTANT_MESSAGE`) applied to
a state whose last transcript entry is not a streaming assistant message
(including the empty transcript) leaves the transcript unchanged, whatever
`emo` or `content` the event carries. -/
theorem c9_stream_end_noop (now : String) (s : ChatState)
    (emo contentOpt : Option String)
    (h : lastIsStreamingAssistant s.messages = false) :
    (chatReducer now s (.finishAssistantMessage emo contentOpt)).messages = s.messages := by
  unfold lastIsStreamingAssistant at h
  cases hml : s.messages.getLast? with
  | none => simp [chatReducer, hml]
  | some m =>
      rw [hml] at h
      have h' : isStreamingAssistant m = false := by simpa using h
      simp [chatReducer, hml, h']

/-- Claim C9 witness: `stream_end` on the empty transcript and on a
transcript ending in a finished assistant message, both unchanged. -/
theorem c9_stream_end_noop_witness :
    (chatReducer "t" initialChatState
        (.finishAssistantMessage (some "happy") (some "X"))).messages = []
    ∧ (chatReducer "t" { initialChatState with
          messages := [{ id := "a", role := "assistant", content := "done",
                         created_at := "t" }] }
        (.finishAssistantMessage (some "happy") (some "X"))).messages
      = [{ id := "a", role := "assistant", content := "done", created_at := "t" }] :=
  ⟨c9_stream_end_noop "t" initialChatState (some "happy") (some "X") rfl,
   c9_stream_end_noop "t" _ (some "happy") (some "X") (by decide)⟩

/-- From a retry counter already at the ceiling, no sequence of close and
error events (no successful open) ever adds a scheduled reconnect. -/
theorem wsRun_no_open_scheduled (evs : List WSEv) : ∀ s : WSState,
    maxReconnectAttempts ≤ s.reconnectAttempts → (∀ e ∈ evs, e ≠ WSEv.openEv) →
    (wsRun s evs).scheduled = s.scheduled := by
  induction evs with
  | nil => intro s _ _; rfl
  | cons e evs ih =>
      intro s h5 hno
      have hrun : wsRun s (e :: evs) = wsRun (wsStep s e) evs := rfl
      cases e with
      | closeEv =>
          have hcl : wsOnClose s = s := by
            unfold wsOnClose
            rw [if_neg (by omega)]
          rw [hrun]
          show (wsRun (wsOnClose s) evs).scheduled = s.scheduled
          rw [hcl]
          exact ih s h5 (fun e he => hno e (List.mem_cons_of_mem _ he))
      | errorEv =>
          rw [hrun]
          show (wsRun (wsOnError s) evs).scheduled = s.scheduled
          exact ih (wsOnError s) h5 (fun e he => hno e (List.mem_cons_of_mem _ he))
      | openEv => exact absurd rfl (hno .openEv (List.mem_cons_self _ _))

/-- Claim C4: the reconnection policy.  A transport close with attempt
count below 5 schedules exactly one reconnect to the last-used identifier
after the fixed 3000-unit delay and increments the count; a close at the
ceiling schedules nothing; a successful open resets the count to zero; a
transport error emits an error event (rejecting the pending connect)
without touching the count or the schedule; from a count of 4, a close
followed by a failed reopen (error, then close) yields exactly one further
scheduled attempt and no more; and once the count is at the ceiling no
close/error sequence ever schedules again. -/
theorem c4_reconnect_policy (s : WSState) :
    (s.reconnectAttempts < maxReconnectAttempts →
       wsOnClose s = { s with
         reconnectAttempts := s.reconnectAttempts + 1
         scheduled := s.scheduled ++ [(s.userId, reconnectDelay)] })
    ∧ (maxReconnectAttempts ≤ s.reconnectAttempts → wsOnClose s = s)
    ∧ (wsOnOpen s).reconnectAttempts = 0
    ∧ wsOnError s = { s with errorEvents := s.errorEvents + 1 }
    ∧ (s.reconnectAttempts = 4 →
        (wsRun s [.closeEv, .errorEv, .closeEv]).scheduled
            = s.scheduled ++ [(s.userId, reconnectDelay)]
        ∧ (wsRun s [.closeEv, .errorEv, .closeEv]).reconnectAttempts
            = maxReconnectAttempts)
    ∧ (maxReconnectAttempts ≤ s.reconnectAttempts →
        ∀ evs : List WSEv, (∀ e ∈ evs, e ≠ WSEv.openEv) →
          (wsRun s evs).scheduled = s.scheduled) := by
  refine ⟨fun h => ?_, fun h => ?_, rfl, rfl, fun h => ?_,
    fun h evs hno => wsRun_no_open_scheduled evs s h hno⟩
  · unfold wsOnClose
    rw [if_pos h]
  · unfold wsOnClose
    rw [if_neg (by omega)]
  · have : wsRun s [.closeEv, .errorEv, .closeEv]
        = wsOnClose (wsOnError (wsOnClose s)) := rfl
    rw [this]
    unfold wsOnClose wsOnError maxReconnectAttempts
    rw [h]
    norm_num

/-- Claim C4 witness: the ceiling scenario evaluated from a concrete
state with attempt count 4. -/
theorem c4_reconnect_policy_witness :
    (wsRun ⟨"u", 4, [], 0⟩ [.closeEv, .errorEv, .closeEv]).scheduled = [("u", 3000)]
    ∧ wsOnClose ⟨"u", 4, [], 0⟩ = (⟨"u", 5, [("u", 3000)], 0⟩ : WSState) := by
  refine ⟨?_, ?_⟩
  · have h := (c4_reconnect_policy ⟨"u", 4, [], 0⟩).2.2.2.2.1 rfl
    simpa using h.1
  · have h := (c4_reconnect_policy ⟨"u", 4, [], 0⟩).1 (by decide)
    simpa using h

/-- Single `stream` delta when the last transcript entry is a streaming
assistant message: the delta is appended to its content in place. -/
theorem appendDelta_last_streaming (now d : String) (s : ChatState)
    (ms : List Message) (m : Message)
    (hm : s.messages = ms ++ [m]) (hs : isStreamingAssistant m = true) :
    chatReducer now s (.appendStreamDelta d) =
      { s with messages := ms ++ [{ m with content := m.content ++ d }] } := by
  unfold chatReducer
  rw [hm, List.getLast?_concat, List.dropLast_concat]
  simp [hs]

/-- Single `stream` delta when the last transcript entry is not a
streaming assistant message (or the transcript is empty): a brand-new
streaming assistant message holding the delta is appended. -/
theorem appendDelta_not_streaming (now d : String) (s : ChatState)
    (h : lastIsStreamingAssistant s.messages = false) :
    chatReducer now s (.appendStreamDelta d) =
      { s with messages := s.messages ++ [newStreamMessage now d] } := by
  unfold lastIsStreamingAssistant at h
  cases hml : s.messages.getLast? with
  | none => simp [chatReducer, hml]
  | some m =>
      rw [hml] at h
      have h' : isStreamingAssistant m = false := by simpa using h
      simp [chatReducer, hml, h']

/-- Folding deltas into a transcript that ends in a streaming assistant
message appends their concatenation to its content in place. -/
theorem applyDeltas_streaming (now : String) (ds : List String) :
    ∀ (s : ChatState) (ms : List Message) (m : Message),
      s.messages = ms ++ [m] → isStreamingAssistant m = true →
      applyDeltas now s ds =
        { s with messages := ms ++ [{ m with content := m.content ++ concatDeltas ds }] } := by
  induction ds with
  | nil =>
      intro s ms m hm _
      show s = _
      rw [show concatDeltas [] = "" from rfl, String.append_empty]
      rw [← hm]
  | cons d ds ih =>
      intro s ms m hm hs
      have hstep := appendDelta_last_streaming now d s ms m hm hs
      have hrun : applyDeltas now s (d :: ds)
          = applyDeltas now (chatReducer now s (.appendStreamDelta d)) ds := rfl
      rw [hrun, hstep]
      have hnext := ih { s with messages := ms ++ [{ m with content := m.content ++ d }] }
        ms { m with content := m.content ++ d } rfl hs
      rw [hnext]
      rw [show concatDeltas (d :: ds) = d ++ concatDeltas ds from rfl,
        ← String.append_assoc]

/-- Claim C1: starting from any transcript whose last entry is not a
streaming assistant message, a nonempty sequence of `stream` delta events
(with no intervening `stream_end`) appends exactly one new trailing
streaming assistant message whose content is the concatenation of the
deltas in arrival order; per event, a delta is appended in place when the
last entry is a streaming assistant message and otherwise starts a
brand-new streaming assistant message holding the delta. -/
theorem c1_stream_assembly (now : String) (s : ChatState) :
    (∀ ds : List String, ds ≠ [] → lastIsStreamingAssistant s.messages = false →
       (applyDeltas now s ds).messages
         = s.messages ++ [newStreamMessage now (concatDeltas ds)])
    ∧ (∀ (ms : List Message) (m : Message) (d : String),
         s.messages = ms ++ [m] → isStreamingAssistant m = true →
         (chatReducer now s (.appendStreamDelta d)).messages
           = ms ++ [{ m with content := m.content ++ d }])
    ∧ (∀ d : String, lastIsStreamingAssistant s.messages = false →
         (chatReducer now s (.appendStreamDelta d)).messages
           = s.messages ++ [newStreamMessage now d]) := by
  refine ⟨?_, ?_, ?_⟩
  · intro ds hne hlast
    match ds with
    | d :: ds =>
        have hstep := appendDelta_not_streaming now d s hlast
        have hrun : applyDeltas now s (d :: ds)
            = applyDeltas now (chatReducer now s (.appendStreamDelta d)) ds := rfl
        rw [hrun, hstep]
        have hnext := applyDeltas_streaming now ds
          { s with messages := s.messages ++ [newStreamMessage now d] }
          s.messages (newStreamMessage now d) rfl rfl
        rw [hnext]
        rfl
  · intro ms m d hm hs
    rw [appendDelta_last_streaming now d s ms m hm hs]
  · intro d hlast
    rw [appendDelta_not_streaming now d s hlast]

/-- Claim C1 witness: from the empty transcript, the deltas `A`, `B`, `C`
assemble into a single trailing streaming assistant message `ABC`; the
per-event branches evaluated on the intermediate states. -/
theorem c1_stream_assembly_witness :
    (applyDeltas "t" initialChatState ["A", "B", "C"]).messages
        = [newStreamMessage "t" "ABC"]
    ∧ (chatReducer "t" { initialChatState with messages := [newStreamMessage "t" "A"] }
        (.appendStreamDelta "B")).messages = [newStreamMessage "t" "AB"] := by
  refine ⟨?_, ?_⟩
  · have h := (c1_stream_assembly "t" initialChatState).1 ["A", "B", "C"]
      (by decide) rfl
    rw [h]
    decide
  · have h := (c1_stream_assembly "t"
        { initialChatState with messages := [newStreamMessage "t" "A"] }).2.1
      [] (newStreamMessage "t" "A") "B" rfl rfl
    rw [h]
    decide

/-- `streamInvB` on a transcript written as prefix plus last element. -/
theorem streamInvB_concat (ms : List Message) (m : Message) :
    streamInvB (ms ++ [m])
      = (ms.all (fun x => !x.isStreaming) && (!m.isStreaming || (m.role == "assistant"))) := by
  unfold streamInvB
  rw [List.dropLast_concat, List.getLast?_concat]

/-- If the invariant holds and the last entry is not streaming, no entry is
streaming. -/
theorem allNotStreaming_of_inv (ms : List Message)
    (hinv : streamInvB ms = true) (hl : lastIsStreaming ms = false) :
    ms.all (fun x => !x.isStreaming) = true := by
  rcases List.eq_nil_or_concat ms with hnil | ⟨L, m, hms⟩
  · subst hnil; rfl
  · rw [List.concat_eq_append] at hms
    subst hms
    rw [streamInvB_concat] at hinv
    unfold lastIsStreaming at hl
    rw [List.getLast?_concat] at hl
    simp only [Bool.and_eq_true] at hinv
    have hl2 : m.isStreaming = false := hl
    simp [List.all_append, hinv.1, hl2]

/-- A message satisfying the last-entry invariant clause that is not a
streaming assistant message is not streaming at all. -/
theorem notStreaming_of_lastOk (m : Message)
    (hok : (!m.isStreaming || (m.role == "assistant")) = true)
    (hsa : isStreamingAssistant m = false) :
    m.isStreaming = false := by
  unfold isStreamingAssistant at hsa
  cases hb : m.isStreaming with
  | false => rfl
  | true =>
      rw [hb] at hok hsa
      simp at hok hsa
      exact absurd hok hsa

/-- `stream_end` when the last transcript entry is a streaming assistant
message: the transcript-level effect of `FINISH_ASSISTANT_MESSAGE`. -/
theorem finish_last_streaming (now : String) (emo c : Option String) (s : ChatState)
    (L : List Message) (m : Message)
    (hm : s.messages = L ++ [m]) (hs : isStreamingAssistant m = true) :
    (chatReducer now s (.finishAssistantMessage emo c)).messages =
      L ++ [{ m with isStreaming := false, emotion := emo, content := jsOr c m.content }] := by
  unfold chatReducer
  rw [hm, List.getLast?_concat, List.dropLast_concat]
  simp [hs]

/-- The dispatched transitions under which the amended C2 invariant is
preserved: everything the provider or an intent ever dispatches, except
that appending a user message requires the last entry not to be mid-stream
and a server-supplied transcript load must itself satisfy the invariant
(server-persisted messages are never streaming).  `START_ASSISTANT_MESSAGE`
is defined in the source but never dispatched. -/
def dispatchSafe (ms : List Message) : ChatAction → Bool
  | .addUserMessage _ _ => !lastIsStreaming ms
  | .startAssistantMessage _ => false
  | .loadSessionMessages ls => streamInvB ls
  | _ => true

/-- Claim C2 (amended): the transcript invariant — at most one streaming
message, and if present it is the last entry and has the assistant role —
is preserved by every dispatched reducer transition EXCEPT appending a
user message (`ADD_USER_MESSAGE`, e.g. via `user_message_echo` or
`sendMessage`) while a streaming message is in flight; it is preserved by
`session_loaded` precisely when the server-supplied messages satisfy the
invariant themselves. -/
theorem c2_stream_invariant_amended (now : String) (s : ChatState) (a : ChatAction)
    (hinv : streamInvB s.messages = true)
    (hok : dispatchSafe s.messages a = true) :
    streamInvB (chatReducer now s a).messages = true := by
  cases a with
  | setConnecting => exact hinv
  | setConnected => exact hinv
  | setDisconnected => exact hinv
  | setUserId uid => exact hinv
  | setSessions ss => exact hinv
  | setActiveSession sid => exact hinv
  | addSession sess => exact hinv
  | removeSession sid =>
      show streamInvB (if s.activeSessionId = some sid then [] else s.messages) = true
      split
      · rfl
      · exact hinv
  | loadSessionMessages ls => exact hok
  | clearMessages => rfl
  | setLoading b => exact hinv
  | setEmotion e => exact hinv
  | setError e => exact hinv
  | startAssistantMessage pid =>
      exact absurd hok (by simp [dispatchSafe])
  | addUserMessage pid content =>
      have hall : s.messages.all (fun x => !x.isStreaming) = true :=
        allNotStreaming_of_inv s.messages hinv (by simpa [dispatchSafe] using hok)
      show streamInvB (s.messages ++ [_]) = true
      rw [streamInvB_concat, hall]
      rfl
  | appendStreamDelta delta =>
      rcases List.eq_nil_or_concat s.messages with hnil | ⟨L, m, hms⟩
      · rw [appendDelta_not_streaming now delta s
          (by simp [lastIsStreamingAssistant, hnil])]
        show streamInvB (s.messages ++ [newStreamMessage now delta]) = true
        rw [streamInvB_concat, hnil]
        rfl
      · rw [List.concat_eq_append] at hms
        cases hsa : isStreamingAssistant m with
        | true =>
            rw [appendDelta_last_streaming now delta s L m hms hsa]
            show streamInvB (L ++ [{ m with content := m.content ++ delta }]) = true
            rw [streamInvB_concat]
            rw [hms, streamInvB_concat] at hinv
            simp only [Bool.and_eq_true] at hinv
            unfold isStreamingAssistant at hsa
            simp only [Bool.and_eq_true] at hsa
            simp [hinv.1, hsa.1]
        | false =>
            have hlast : lastIsStreamingAssistant s.messages = false := by
              unfold lastIsStreamingAssistant
              rw [hms, List.getLast?_concat]
              exact hsa
            rw [appendDelta_not_streaming now delta s hlast]
            show streamInvB (s.messages ++ [newStreamMessage now delta]) = true
            rw [streamInvB_concat]
            rw [hms, streamInvB_concat] at hinv
            simp only [Bool.and_eq_true] at hinv
            have hmns := notStreaming_of_lastOk m hinv.2 hsa
            rw [hms]
            simp [List.all_append, hinv.1, hmns, newStreamMessage]
  | finishAssistantMessage emo c =>
      rcases List.eq_nil_or_concat s.messages with hnil | ⟨L, m, hms⟩
      · have hmsg : (chatReducer now s (.finishAssistantMessage emo c)).messages
            = s.messages := by
          simp [chatReducer, hnil]
        rw [hmsg]
        exact hinv
      · rw [List.concat_eq_append] at hms
        cases hsa : isStreamingAssistant m with
        | true =>
            rw [finish_last_streaming now emo c s L m hms hsa]
            rw [streamInvB_concat]
            rw [hms, streamInvB_concat] at hinv
            simp only [Bool.and_eq_true] at hinv
            simp [hinv.1]
        | false =>
            have hmsg : (chatReducer now s (.finishAssistantMessage emo c)).messages
                = s.messages := by
              simp [chatReducer, hms, List.getLast?_concat, hsa]
            rw [hmsg]
            exact hinv

/-- Claim C2 counterexample: the state reached from the initial state by
the inbound events `stream` (delta `A`) and then `user_message_echo`
(content `hi`) — both dispatched by the provider — violates the invariant:
the streaming assistant message is no longer the last transcript entry.
The second conjunct shows the invariant held before the user-message
dispatch, so a single dispatched transition broke it. -/
theorem c2_stream_invariant_counterexample :
    streamInvB ((chatReducer "t2"
        (chatReducer "t1" initialChatState (.appendStreamDelta "A"))
        (.addUserMessage none "hi")).messages) = false
    ∧ streamInvB ((chatReducer "t1" initialChatState
        (.appendStreamDelta "A")).messages) = true := by
  refine ⟨by decide, by decide⟩

/-- Claim C2 witness (amended theorem): appending a user message while the
last entry is not streaming, evaluated on the initial state. -/
theorem c2_stream_invariant_amended_witness :
    streamInvB ((chatReducer "t" initialChatState
        (.addUserMessage none "hi")).messages) = true :=
  c2_stream_invariant_amended "t" initialChatState (.addUserMessage none "hi") rfl rfl

/-- Claim C7 counterexample: `ADD_SESSION` (the `session_created` event)
changes the active session id from `s1` to `s2` but carries the previous
session's transcript over unchanged — the transcript is neither empty nor
replaced. -/
theorem c7_transcript_clear_counterexample :
    ((chatReducer "t1" { initialChatState with
        activeSessionId := some "s1"
        messages := [{ id := "m1", role := "user", content := "old",
                       created_at := "t0" }] }
      (.addSession { id := "s2", title := "新对话", created_at := "t1",
                     updated_at := "t1" })).activeSessionId = some "s2")
    ∧ ((chatReducer "t1" { initialChatState with
        activeSessionId := some "s1"
        messages := [{ id := "m1", role := "user", content := "old",
                       created_at := "t0" }] }
      (.addSession { id := "s2", title := "新对话", created_at := "t1",
                     updated_at := "t1" })).messages
        = [{ id := "m1", role := "user", content := "old", created_at := "t0" }])
    ∧ [({ id := "m1", role := "user", content := "old", created_at := "t0" } : Message)]
        ≠ ([] : List Message) := by
  refine ⟨rfl, rfl, by decide⟩

/-- Claim C7 (amended): `ADD_SESSION` makes the new session active but
does NOT clear the transcript — it carries the messages over unchanged; it
is the `createSession` intent that clears the transcript synchronously
when issuing the create command, so in the intended flow (clear, then the
`session_created` event, with no transcript mutation in between) the
transcript is empty once the new session becomes active. -/
theorem c7_transcript_clear_amended (now : String) (s : ChatState) (sess : Session)
    (sys : Sys) :
    ((chatReducer now s (.addSession sess)).messages = s.messages
      ∧ (chatReducer now s (.addSession sess)).activeSessionId = some sess.id)
    ∧ (createSessionIntent now sys).chat.messages = []
    ∧ ((chatReducer now (chatReducer now s .clearMessages) (.addSession sess)).messages = []
      ∧ (chatReducer now (chatReducer now s .clearMessages)
          (.addSession sess)).activeSessionId = some sess.id) :=
  ⟨⟨rfl, rfl⟩, rfl, rfl, rfl⟩

/-- Claim C8 counterexample: with the streaming assistant message holding
accumulated content `AB`, a `stream_end` whose server-supplied final
content is the (provided, but empty) string keeps the accumulated `AB`
instead of replacing the content as the claim states. -/
theorem c8_finish_counterexample :
    ((chatReducer "t1" { initialChatState with
        activeSessionId := some "s1"
        messages := [{ id := "a1", role := "assistant", content := "AB",
                       created_at := "t0", isStreaming := true }] }
      (.finishAssistantMessage (some "happy") (some ""))).messages.map Message.content
        = ["AB"])
    ∧ ("AB" : String) ≠ "" := by
  refine ⟨rfl, by decide⟩

/-- Claim C8 (amended): on `stream_end` with the last entry a streaming
assistant message, that message is marked non-streaming, its emotion tag
is set from the event, and its content is replaced by the server-supplied
final content when a NON-EMPTY one is provided (an absent or empty final
content keeps the accumulated content — JS truthiness); the process-wide
current-emotion indicator is likewise updated only by a non-empty emotion
tag.  All in one reducer step. -/
theorem c8_finish_amended (now : String) (s : ChatState) (L : List Message) (m : Message)
    (emo contentOpt : Option String)
    (hm : s.messages = L ++ [m]) (hs : isStreamingAssistant m = true) :
    chatReducer now s (.finishAssistantMessage emo contentOpt) =
      { s with
        messages := L ++ [{ m with
          isStreaming := false
          emotion := emo
          content := jsOr contentOpt m.content }]
        currentEmotion := jsOrOpt emo s.currentEmotion } := by
  unfold chatReducer
  rw [hm, List.getLast?_concat, List.dropLast_concat]
  simp [hs]

/-- Claim C8 witness: the spec scenario — active session, deltas `A` then
`B`, then `stream_end` with emotion `happy` and no final content — ends
with last message (assistant, `AB`, not streaming, emotion `happy`). -/
theorem c8_finish_amended_witness :
    ((chatReducer "t3" (chatReducer "t2" (chatReducer "t1"
        { initialChatState with activeSessionId := some "s1" }
        (.appendStreamDelta "A")) (.appendStreamDelta "B"))
      (.finishAssistantMessage (some "happy") none)).messages.map
        (fun m => (m.role, m.content, m.isStreaming, m.emotion)))
      = [("assistant", "AB", false, some "happy")] := by
  have h := c8_finish_amended "t3"
    (chatReducer "t2" (chatReducer "t1"
        { initialChatState with activeSessionId := some "s1" }
        (.appendStreamDelta "A")) (.appendStreamDelta "B"))
    [] { id := "assistant-t1"
         role := "assistant"
         content := "AB"
         created_at := "t1"
         isStreaming := true }
    (some "happy") none (by decide) (by decide)
  rw [h]
  decide

/-- Open-socket count over a transport list. -/
def countOpenL (l : List Transport) : Nat :=
  (l.filter (fun t => t.status = .opened)).length

theorem countOpen_eq_countOpenL (w : ConnWorld) :
    countOpen w = countOpenL w.transports := rfl

theorem countOpenL_cons (a : Transport) (l : List Transport) :
    countOpenL (a :: l) = (if a.status = .opened then 1 else 0) + countOpenL l := by
  unfold countOpenL
  rw [List.filter_cons]
  by_cases h : a.status = .opened
  · simp [h, Nat.add_comm]
  · simp [h]

/-- Pushing a fresh CONNECTING socket never changes the open count. -/
theorem countOpen_push (u : String) (w : ConnWorld) :
    countOpen (pushTransport u w) = countOpen w := by
  unfold countOpen pushTransport
  rw [List.filter_append]
  simp

/-- Overwriting one slot with a non-open socket cannot increase the open
count. -/
theorem countOpenL_set_le (l : List Transport) : ∀ (i : Nat) (t : Transport),
    t.status ≠ .opened → countOpenL (l.set i t) ≤ countOpenL l := by
  induction l with
  | nil => intro i t _; exact Nat.le_refl _
  | cons x xs ih =>
      intro i t ht
      cases i with
      | zero =>
          rw [List.set_cons_zero, countOpenL_cons, countOpenL_cons, if_neg ht]
          have h0 : (0:Nat) ≤ (if x.status = .opened then 1 else 0) := Nat.zero_le _
          omega
      | succ n =>
          rw [List.set_cons_succ, countOpenL_cons, countOpenL_cons]
          exact Nat.add_le_add_left (ih n t ht) _

/-- Claim C5 counterexample: `connect("a")` immediately followed by
`connect("b")` while the first socket is still CONNECTING.  The source
only closes the old socket when its readyState is OPEN, so the first
socket (targeting the different identifier `a`) is NOT closed before the
new one is constructed — and when the browser later opens both sockets,
two transports are open concurrently. -/
theorem c5_single_transport_counterexample :
    ((wsConnect "b" (wsConnect "a" { transports := [], cur := none })).transports.map
        Transport.status = [.connecting, .connecting])
    ∧ countOpen (tOpenEvent 1 (tOpenEvent 0
        (wsConnect "b" (wsConnect "a" { transports := [], cur := none })))) = 2 := by
  refine ⟨rfl, rfl⟩

/-- Claim C5 (amended): `connect(u)` with the current transport OPEN on
the same identifier is an idempotent no-op creating no transport; with the
current transport OPEN on a different identifier, that transport is closed
(marked CLOSING) before the new CONNECTING socket is constructed; and a
`connect` call never increases the number of open transports.  A current
transport that is not yet open is abandoned without being closed (see the
counterexample), so the at-most-one-open guarantee only covers the
open-current cases. -/
theorem c5_single_transport_amended (u : String) (w : ConnWorld) (i : Nat) (t : Transport) :
    (w.cur = some i → w.transports[i]? = some t → t.status = .opened → t.user = u →
       wsConnect u w = w)
    ∧ (w.cur = some i → w.transports[i]? = some t → t.status = .opened → t.user ≠ u →
       wsConnect u w = pushTransport u
         { w with transports := w.transports.set i { t with status := .closing } })
    ∧ countOpen (wsConnect u w) ≤ countOpen w := by
  refine ⟨?_, ?_, ?_⟩
  · intro hc ht hop hu
    simp [wsConnect, hc, ht, hop, hu]
  · intro hc ht hop hu
    simp [wsConnect, hc, ht, hop, hu]
  · cases hc : w.cur with
    | none => simp [wsConnect, hc, countOpen_push]
    | some i2 =>
        cases ht : w.transports[i2]? with
        | none => simp [wsConnect, hc, ht, countOpen_push]
        | some t2 =>
            by_cases hop : t2.status = .opened
            · by_cases hu : t2.user = u
              · simp [wsConnect, hc, ht, hop, hu]
              · simp only [wsConnect, hc, ht]
                rw [if_pos hop, if_neg hu, countOpen_push]
                rw [countOpen_eq_countOpenL, countOpen_eq_countOpenL]
                exact countOpenL_set_le w.transports i2
                  { t2 with status := .closing } (by simp)
            · simp only [wsConnect, hc, ht]
              rw [if_neg hop, countOpen_push]

/-- Claim C5 witness: both open-current branches of
`c5_single_transport_amended` evaluated on a world with a single OPEN
socket for user `a`. -/
theorem c5_single_transport_amended_witness :
    wsConnect "a" { transports := [{ user := "a", status := .opened }], cur := some 0 }
        = { transports := [{ user := "a", status := .opened }], cur := some 0 }
    ∧ wsConnect "b" { transports := [{ user := "a", status := .opened }], cur := some 0 }
        = { transports := [{ user := "a", status := .closing },
                           { user := "b", status := .connecting }], cur := some 1 } := by
  refine ⟨?_, ?_⟩
  · exact (c5_single_transport_amended "a"
      { transports := [{ user := "a", status := .opened }], cur := some 0 }
      0 { user := "a", status := .opened }).1 rfl rfl rfl rfl
  · have h := (c5_single_transport_amended "b"
      { transports := [{ user := "a", status := .opened }], cur := some 0 }
      0 { user := "a", status := .opened }).2.1 rfl rfl rfl (by decide)
    rw [h]
    rfl

/-- `emit('session_created')` over the provider handler followed by one
one-shot deferred-send handler: the session is added first, then the
deferred user message and `chat` frame, and the one-shot removes itself. -/
theorem emit_two_handlers (now : String) (d : SessionCreatedData) (sys : Sys)
    (c : String) (uid : Nat)
    (hl : sys.listeners = [.addSessionH, .oneShotH c uid]) :
    emitSessionCreated now d sys =
      { chat := chatReducer now (chatReducer now sys.chat
            (.addSession (sessionOfData now d))) (.addUserMessage none c)
        frames := sys.frames ++ [.chatF c]
        listeners := [.addSessionH] } := by
  obtain ⟨chat, listeners, frames⟩ := sys
  simp only at hl
  subst hl
  simp [emitSessionCreated, emitFrom, runHandler, removeFirst]

/-- `emit('session_created')` with only the provider handler subscribed:
the event just adds the session. -/
theorem emit_one_handler (now : String) (d : SessionCreatedData) (sys : Sys)
    (hl : sys.listeners = [.addSessionH]) :
    emitSessionCreated now d sys =
      { sys with chat := chatReducer now sys.chat (.addSession (sessionOfData now d)) } := by
  obtain ⟨chat, listeners, frames⟩ := sys
  simp only at hl
  subst hl
  simp [emitSessionCreated, emitFrom, runHandler]

/-- `emit('session_created')` over the provider handler and two one-shot
handlers: the first one-shot runs and splices itself out of the live
array, so the `forEach` iteration skips the second one-shot entirely —
it neither runs nor is removed. -/
theorem emit_three_handlers (now : String) (d : SessionCreatedData) (sys : Sys)
    (c1 c2 : String) (u1 u2 : Nat)
    (hl : sys.listeners = [.addSessionH, .oneShotH c1 u1, .oneShotH c2 u2]) :
    emitSessionCreated now d sys =
      { chat := chatReducer now (chatReducer now sys.chat
            (.addSession (sessionOfData now d))) (.addUserMessage none c1)
        frames := sys.frames ++ [.chatF c1]
        listeners := [.addSessionH, .oneShotH c2 u2] } := by
  obtain ⟨chat, listeners, frames⟩ := sys
  simp only at hl
  subst hl
  simp [emitSessionCreated, emitFrom, runHandler, removeFirst]

/-- Claim C3: `sendMessage(c)` with non-blank `c` and no active session
sends exactly a `new_session` frame and appends nothing, registering a
one-shot handler; on the next `session_created` the new session becomes
active, exactly one user message with content `c` is appended, and a
`chat` frame with content `c` is sent, in that order; the one-shot
detaches itself so a further `session_created` appends no message and
sends no frame.  With an active session the user message is appended
immediately and the `chat` frame sent without waiting. -/
theorem c3_send_message (now now2 now3 : String) (uid : Nat) (c : String) (sys : Sys)
    (d d2 : SessionCreatedData) (hblank : isBlankStr c = false) :
    (sys.chat.activeSessionId = none →
       sendMessageIntent now uid c sys =
         { sys with
           frames := sys.frames ++ [.newSessionF]
           listeners := sys.listeners ++ [.oneShotH c uid] })
    ∧ (sys.chat.activeSessionId = none → sys.listeners = [.addSessionH] →
        (emitSessionCreated now2 d (sendMessageIntent now uid c sys)).chat.activeSessionId
            = some d.session_id
        ∧ (emitSessionCreated now2 d (sendMessageIntent now uid c sys)).chat.messages
            = sys.chat.messages ++
              [{ id := "user-" ++ now2, role := "user", content := c, created_at := now2 }]
        ∧ (emitSessionCreated now2 d (sendMessageIntent now uid c sys)).frames
            = sys.frames ++ [.newSessionF, .chatF c]
        ∧ (emitSessionCreated now2 d (sendMessageIntent now uid c sys)).listeners
            = [.addSessionH]
        ∧ (emitSessionCreated now3 d2 (emitSessionCreated now2 d
              (sendMessageIntent now uid c sys))).chat.messages
            = (emitSessionCreated now2 d (sendMessageIntent now uid c sys)).chat.messages
        ∧ (emitSessionCreated now3 d2 (emitSessionCreated now2 d
              (sendMessageIntent now uid c sys))).frames
            = (emitSessionCreated now2 d (sendMessageIntent now uid c sys)).frames)
    ∧ (∀ sid, sys.chat.activeSessionId = some sid →
        sendMessageIntent now uid c sys =
          { sys with
            chat := chatReducer now sys.chat (.addUserMessage none c)
            frames := sys.frames ++ [.chatF c] }) := by
  have hsend : sys.chat.activeSessionId = none → sendMessageIntent now uid c sys =
      { sys with
        frames := sys.frames ++ [.newSessionF]
        listeners := sys.listeners ++ [.oneShotH c uid] } := by
    intro hact
    simp [sendMessageIntent, hblank, hact]
  refine ⟨hsend, ?_, ?_⟩
  · intro hact hl
    rw [hsend hact]
    have hl1 : ({ sys with
        frames := sys.frames ++ [.newSessionF]
        listeners := sys.listeners ++ [.oneShotH c uid] } : Sys).listeners
        = [.addSessionH, .oneShotH c uid] := by simp [hl]
    rw [emit_two_handlers now2 d _ c uid hl1]
    rw [emit_one_handler now3 d2 _ rfl]
    refine ⟨rfl, rfl, ?_, rfl, rfl, rfl⟩
    simp
  · intro sid hact
    simp [sendMessageIntent, hblank, hact]

/-- Claim C3 witness: the spec scenario — no active session, provider
handler subscribed, `sendMessage("hi")`, then `session_created` for `s1`:
the transcript gains exactly the user message `hi` and the frames are
`new_session` then `chat hi`. -/
theorem c3_send_message_witness :
    (emitSessionCreated "t2" ⟨"s1", none⟩
        (sendMessageIntent "t1" 7 "hi" ⟨initialChatState, [.addSessionH], []⟩)).chat.messages
      = [{ id := "user-t2", role := "user", content := "hi", created_at := "t2" }]
    ∧ (emitSessionCreated "t2" ⟨"s1", none⟩
        (sendMessageIntent "t1" 7 "hi" ⟨initialChatState, [.addSessionH], []⟩)).frames
      = [.newSessionF, .chatF "hi"]
    ∧ (emitSessionCreated "t2" ⟨"s1", none⟩
        (sendMessageIntent "t1" 7 "hi" ⟨initialChatState, [.addSessionH], []⟩)).chat.activeSessionId
      = some "s1" := by
  have h := (c3_send_message "t1" "t2" "t3" 7 "hi" ⟨initialChatState, [.addSessionH], []⟩
      ⟨"s1", none⟩ ⟨"s2", none⟩ (by decide)).2.1 rfl rfl
  exact ⟨by simpa using h.2.1, by simpa using h.2.2.1, h.1⟩

/-- Claim C10: `emit` iterates the live handler array while `off` splices
it in place, so a one-shot handler that unsubscribes itself during
dispatch makes the iteration skip the handler registered immediately
after it: with two pending deferred sends, one `session_created` delivers
only the first (`chat` frame for `c1`, no frame or message for `c2`),
while the second one-shot stays subscribed and misses that occurrence. -/
theorem c10_emit_splice_skips_sibling (now : String) (d : SessionCreatedData) (sys : Sys)
    (c1 c2 : String) (u1 u2 : Nat)
    (hl : sys.listeners = [.addSessionH, .oneShotH c1 u1, .oneShotH c2 u2]) :
    (emitSessionCreated now d sys).frames = sys.frames ++ [.chatF c1]
    ∧ (emitSessionCreated now d sys).listeners = [.addSessionH, .oneShotH c2 u2]
    ∧ (emitSessionCreated now d sys).chat.messages
        = sys.chat.messages ++
          [{ id := "user-" ++ now, role := "user", content := c1, created_at := now }] := by
  rw [emit_three_handlers now d sys c1 c2 u1 u2 hl]
  exact ⟨rfl, rfl, rfl⟩

/-- Claim C10 witness: two pending one-shot deferred sends (`first`,
`second`); a single `session_created` sends only `chat first` and leaves
the `second` one-shot subscribed. -/
theorem c10_emit_splice_skips_sibling_witness :
    (emitSessionCreated "t" ⟨"s1", none⟩
        ⟨initialChatState, [.addSessionH, .oneShotH "first" 1, .oneShotH "second" 2], []⟩).frames
      = [.chatF "first"]
    ∧ (emitSessionCreated "t" ⟨"s1", none⟩
        ⟨initialChatState, [.addSessionH, .oneShotH "first" 1, .oneShotH "second" 2], []⟩).listeners
      = [.addSessionH, .oneShotH "second" 2] := by
  have h := c10_emit_splice_skips_sibling "t" ⟨"s1", none⟩
    ⟨initialChatState, [.addSessionH, .oneShotH "first" 1, .oneShotH "second" 2], []⟩
    "first" "second" 1 2 rfl
  exact ⟨by simpa using h.1, h.2.1⟩
